import Mathlib

/-!
# Verification of the vaulted-api user controller and auth service

Shallow embedding of the user-management code of the repository:

* `src/passweaver-api.mjs` — startup checks (`main`), and the embedded
  `src/auth.mjs` module (`createToken`, `validateJWT`, `isAdmin`);
* `src/api/v1/controllers/users.mjs` — `get`, `create`, `update`, `remove`,
  `setPersonalSecret`, `personalFolderLogin`.

The database is modelled as lists of records matching the Prisma schema
(timestamp columns `createdat`/`updatedat` are managed by the ORM, not by the
controller code, and are omitted).  Each Prisma call becomes a pure function
on the `Db` state.  Failure of a database write is modelled by an explicit
`failAt` index naming the first write that throws; Prisma's interactive
`$transaction` rolls back only the writes issued on the transaction client
`tx`, while writes issued on the module-level `prisma` client auto-commit
individually — the embedding records on which client each write is issued.
-/

namespace Vaulted

/-- Calendar timestamp, as produced by the JS `new Date(y,m,d,h,mi,s)` calls
in the controller (field-by-field; no arithmetic is ever done on it). -/
structure DateTime where
  year : Nat
  month : Nat
  day : Nat
  hour : Nat
  minute : Nat
  second : Nat
deriving DecidableEq, Repr

/-- The literal `new Date(2050,12,31,23,59,59)` used by `create` and `update`
for the `secretexpiresat` column. -/
def secretExpiry : DateTime := ⟨2050, 12, 31, 23, 59, 59⟩

/-- A row of the `Users` table (Prisma model `Users`).  `lastname` is kept
optional because `create` writes `req.body?.lastname`, which may be absent. -/
structure User where
  id : String
  login : String
  lastname : Option String
  firstname : Option String
  authmethod : String
  locale : String
  email : String
  secret : String
  secretexpiresat : DateTime
  personalsecret : Option String
  active : Bool
deriving DecidableEq, Repr

/-- A row of the `Folders` table. -/
structure Folder where
  id : String
  parent : Option String
  description : String
  personal : Bool
  user : Option String
deriving DecidableEq, Repr

/-- A row of the `UsersGroups` membership table. -/
structure UserGroup where
  id : String
  user : String
  group : String
deriving DecidableEq, Repr

/-- A row of the `Items` table (only the columns the user controller touches;
the encrypted payload columns ride along untouched). -/
structure Item where
  id : String
  folder : String
  personal : Bool
  title : String
  data : String
  dataiv : String
  dataauthtag : String
deriving DecidableEq, Repr

/-- The relational store, as the controllers see it through Prisma. -/
structure Db where
  users : List User
  folders : List Folder
  usersGroups : List UserGroup
  items : List Item
deriving DecidableEq, Repr

/-- `prisma.users.findUnique({ where: { id } })`. -/
def findUser (db : Db) (id : String) : Option User :=
  db.users.find? (fun u => u.id == id)

/-- Whether a user row with the given id exists in the store. -/
def existsUser (db : Db) (id : String) : Bool :=
  db.users.any (fun u => u.id == id)

/-- Modelled from the spec: `Crypt.hashPassword` (module `src/crypt.mjs` is
not among the provided sources).  The spec only requires a password hash the
server can later check a password against, so hashing is modelled as an
injective tagging of the password. -/
def hashPassword (p : String) : String := "bcrypt$" ++ p

/-- Modelled from the spec: `Crypt.checkPassword` succeeds exactly when the
supplied password matches the stored hash; a user with no stored personal
secret (`null` column) matches no password. -/
def checkPassword (p : String) (stored : Option String) : Bool :=
  match stored with
  | some h => hashPassword p == h
  | none => false

/-! ## Identity & token service (`src/auth.mjs`) -/

/-- The configuration fields `src/auth.mjs` reads (`Config.get().jwt_key`,
`Config.get().jwt_duration`); time is in seconds since the epoch, as in the
`jsonwebtoken` library. -/
structure Cfg where
  jwt_key : String
  jwt_duration : Nat
deriving DecidableEq, Repr

/-- The claims object passed to `jsonwebtoken.sign`. -/
structure JwtPayload where
  user : String
  admin : Bool
  personalfolder : Bool
deriving DecidableEq, Repr

/-- A signed token.  The HS512 signature is modelled by recording the signing
key: verification with key `k` succeeds exactly on tokens whose `signKey` is
`k`, which is the defining property of the MAC. -/
structure Jwt where
  payload : JwtPayload
  iat : Nat
  exp : Nat
  signKey : String
deriving DecidableEq, Repr

/-- The argument of `Auth.isAdmin`: the source dispatches on
`typeof(entity)`, a user-id string or an Express request object (of which
only `req.jwt.admin` is read). -/
inductive AuthEntity where
  | userId (id : String)
  | request (jwtAdmin : Bool)
deriving DecidableEq, Repr

/-- `Auth.isAdmin` (`src/auth.mjs`): for a string, query the `UsersGroups`
table for a membership in the built-in group `"A"` (Admins) and test
`perm.length > 0`; for a request object, return the `admin` flag embedded in
its already-verified token, with no database access. -/
def isAdmin (db : Db) : AuthEntity → Bool
  | .userId u =>
      decide (0 < (db.usersGroups.filter (fun g => g.group == "A" && g.user == u)).length)
  | .request a => a

/-- `Auth.createToken` (`src/auth.mjs`): computes `isadmin` by the database
query at issuance time and signs `{user, admin, personalfolder}` with the
configured key, expiring `jwt_duration` after `now`. -/
def createToken (cfg : Cfg) (db : Db) (user : String) (personalfolder : Bool) (now : Nat) : Jwt :=
  { payload := { user := user, admin := isAdmin db (AuthEntity.userId user),
                 personalfolder := personalfolder },
    iat := now, exp := now + cfg.jwt_duration, signKey := cfg.jwt_key }

/-- The two failure modes of `jsonwebtoken.verify` that `validateJWT`
distinguishes (`err.name == 'TokenExpiredError'` versus everything else). -/
inductive JwtError where
  | expired
  | invalid
deriving DecidableEq, Repr

/-- `jsonwebtoken.verify(token, key)`: the signature is checked first (a
token signed with a different key is rejected as invalid regardless of its
claims), then the `exp` claim (`now ≥ exp` is expired). -/
def verifyJwt (cfg : Cfg) (t : Jwt) (now : Nat) : Except JwtError JwtPayload :=
  if t.signKey != cfg.jwt_key then .error .invalid
  else if t.exp ≤ now then .error .expired
  else .ok t.payload

/-- The message `Auth.validateJWT` sends with status 401 for each failure. -/
def jwtErrorMessage : JwtError → String
  | .expired => "Token expired"
  | .invalid => "Invalid token"

/-- `Auth.validateJWT` middleware: a missing bearer token and each
verification failure produce a 401 with the corresponding message; on
success the decoded payload is attached to the request. -/
def validateJWT (cfg : Cfg) (tok : Option Jwt) (now : Nat) : Except (Nat × String) JwtPayload :=
  match tok with
  | none => .error (401, "A token is required for authentication")
  | some t =>
      match verifyJwt cfg t now with
      | .ok p => .ok p
      | .error e => .error (401, jwtErrorMessage e)

/-! ## Startup (`src/passweaver-api.mjs`, top level) -/

/-- The two environment-supplied keys the startup code checks. -/
structure StartupConfig where
  master_key : Option String
  jwt_key : Option String
deriving DecidableEq, Repr

/-- JS truthiness test on a possibly-missing string config entry:
`!cfg.master_key` is true when the entry is absent or the empty string. -/
def falsyKey : Option String → Bool
  | none => true
  | some s => s == ""

/-- Outcome of the module top level: either `process.exit(code)` before any
route is installed, or a running server with the listed routers mounted. -/
inductive StartupResult where
  | exited (code : Nat)
  | started (routes : List String)
deriving DecidableEq, Repr

/-- The routers `app.use` mounts, in source order. -/
def apiRoutes : List String :=
  ["/api/v1/items", "/api/v1/folders", "/api/v1/groups", "/api/v1/users",
   "/api/v1/login", "/api/v1/util", "/api/v1/events"]

/-- The top level of `src/passweaver-api.mjs`: missing master key exits with
code 1, missing JWT key with code 2, both before any `app.use(...)` route
installation; otherwise all routers are installed and the server starts. -/
def startup (cfg : StartupConfig) : StartupResult :=
  if falsyKey cfg.master_key then .exited 1
  else if falsyKey cfg.jwt_key then .exited 2
  else .started apiRoutes

/-! ## User controller (`src/api/v1/controllers/users.mjs`)

Each controller function takes the request data it actually reads: the
`admin` flag of the request's verified token (`Auth.isAdmin(req)` reads
`req.jwt.admin`), the route parameter, and the JSON body.  A body that fails
`jsonschema.validate` is modelled as `none`.  A thrown database error is
reported by the Express error middleware as status 500. -/

/-- A `POST /users` body that satisfies `createSchema` (`login`, `firstname`,
`email`, `secret` required strings; the rest optional strings). -/
structure CreateBody where
  login : String
  firstname : String
  lastname : Option String
  authmethod : Option String
  locale : Option String
  email : String
  secret : String
deriving DecidableEq, Repr

/-- A `PATCH /users/:id` body that satisfies `updateSchema` structurally
(all fields optional; the `authmethod` pattern is checked separately by
`validUpdateBody`). -/
structure UpdateBody where
  login : Option String
  firstname : Option String
  lastname : Option String
  authmethod : Option String
  locale : Option String
  email : Option String
  secret : Option String
  active : Option Bool
deriving DecidableEq, Repr

/-- `cs` starts with `ns`. -/
def seqStarts : List Char → List Char → Bool
  | _, [] => true
  | [], _ :: _ => false
  | c :: cs, n :: ns => c == n && seqStarts cs ns

/-- `ns` occurs contiguously somewhere in `cs`. -/
def seqHas : List Char → List Char → Bool
  | [], ns => ns.isEmpty
  | c :: cs, ns => seqStarts (c :: cs) ns || seqHas cs ns

/-- Unanchored regular-expression match of `updateSchema`'s pattern
`/local|ldap/` against a string: the pattern matches when either literal
occurs anywhere in the string. -/
def matchesAuthmethodPattern (s : String) : Bool :=
  seqHas s.data "local".data || seqHas s.data "ldap".data

/-- `jsonschema.validate(body, updateSchema)` beyond the structural typing
already enforced by `UpdateBody`: the `pattern` keyword applies only when
`authmethod` is present. -/
def validUpdateBody (b : UpdateBody) : Bool :=
  match b.authmethod with
  | none => true
  | some s => matchesAuthmethodPattern s

/-- JS truthiness of an optional string request field: `if (req.body.f)`
runs its branch only when the field is present and non-empty. -/
def truthy : Option String → Bool
  | none => false
  | some s => s != ""

/-- The `GET /users/:id` response object: the `select` list of `get`, minus
`personalsecret` (deleted after computing `haspersonalsecret`); the
ORM-managed timestamp columns are omitted throughout the model. -/
structure GetUserResponse where
  id : String
  login : String
  firstname : Option String
  lastname : Option String
  authmethod : String
  locale : String
  email : String
  active : Bool
  haspersonalsecret : Bool
deriving DecidableEq, Repr

/-- `get` (users controller): look the user up; 404 when absent, else 200
with the selected columns and `haspersonalsecret := personalsecret !== null`,
the `personalsecret` field itself being deleted from the response. -/
def getUser (db : Db) (id : String) : Nat × Option GetUserResponse :=
  match findUser db id with
  | none => (404, none)
  | some u =>
      (200, some { id := u.id, login := u.login, firstname := u.firstname,
                   lastname := u.lastname, authmethod := u.authmethod,
                   locale := u.locale, email := u.email, active := u.active,
                   haspersonalsecret := u.personalsecret.isSome })

/-- `prisma.users.create`: appends a row. -/
def insertUser (u : User) (db : Db) : Db := { db with users := db.users ++ [u] }

/-- `prisma.folders.create`: appends a row. -/
def insertFolder (f : Folder) (db : Db) : Db := { db with folders := db.folders ++ [f] }

/-- `prisma.usersGroups.create`: appends a row. -/
def insertUserGroup (g : UserGroup) (db : Db) : Db :=
  { db with usersGroups := db.usersGroups ++ [g] }

/-- The user row `create` writes: defaulted `locale`/`authmethod`, hashed
secret, the fixed far-future `secretexpiresat`, and the schema defaults
`personalsecret = null`, `active = true`. -/
def newUserRecord (b : CreateBody) (newid : String) : User :=
  { id := newid, login := b.login, firstname := some b.firstname,
    lastname := b.lastname, authmethod := b.authmethod.getD "local",
    locale := b.locale.getD "en_US", email := b.email,
    secret := hashPassword b.secret, secretexpiresat := secretExpiry,
    personalsecret := none, active := true }

/-- The three database writes of `create`, in source order: the user row,
the personal folder (personal, owned by the new user, parented under the
personal-roots anchor `"P"`, described by the login), and the membership row
in the built-in group `"E"` (Everyone).  There is no enclosing transaction
in the source. -/
def createSteps (b : CreateBody) (newid newFolderId newGroupId : String) : List (Db → Db) :=
  [insertUser (newUserRecord b newid),
   insertFolder { id := newFolderId, parent := some "P", description := b.login,
                  personal := true, user := some newid },
   insertUserGroup { id := newGroupId, user := newid, group := "E" }]

/-- Run a sequence of independent (non-transactional) writes; `failAt k`
means the write with index `k` throws, so the writes before it remain
committed and the rest never run. -/
def runSeq (steps : List (Db → Db)) (failAt : Option Nat) (db : Db) : Bool × Db :=
  match failAt with
  | none => (true, steps.foldl (fun d s => s d) db)
  | some k => (false, (steps.take k).foldl (fun d s => s d) db)

/-- `create` (users controller): admin check on the request token, schema
validation, then the three sequential writes; 201 with the new id on
success, 500 via the error middleware when a write throws. -/
def createUser (db : Db) (reqAdmin : Bool) (body : Option CreateBody)
    (newid newFolderId newGroupId : String) (failAt : Option Nat) :
    Nat × Db × Option String :=
  if !reqAdmin then (403, db, none)
  else
    match body with
    | none => (400, db, none)
    | some b =>
        let r := runSeq (createSteps b newid newFolderId newGroupId) failAt db
        if r.1 then (201, r.2, some newid) else (500, r.2, none)

/-- The net effect on one user row of the `updateStruct` that `update`
builds: a string field is copied only when present and truthy (a supplied
empty string is skipped), a supplied `secret` also resets `secretexpiresat`,
and `active` is copied whenever the property is present (so `false` is
applied); `id` and `personalsecret` are never part of `updateStruct`. -/
def applyUpdate (b : UpdateBody) (u : User) : User :=
  { id := u.id,
    login := match b.login with
      | some s => if s != "" then s else u.login
      | none => u.login,
    firstname := match b.firstname with
      | some s => if s != "" then some s else u.firstname
      | none => u.firstname,
    lastname := match b.lastname with
      | some s => if s != "" then some s else u.lastname
      | none => u.lastname,
    authmethod := match b.authmethod with
      | some s => if s != "" then s else u.authmethod
      | none => u.authmethod,
    locale := match b.locale with
      | some s => if s != "" then s else u.locale
      | none => u.locale,
    email := match b.email with
      | some s => if s != "" then s else u.email
      | none => u.email,
    secret := match b.secret with
      | some s => if s != "" then hashPassword s else u.secret
      | none => u.secret,
    secretexpiresat := match b.secret with
      | some s => if s != "" then secretExpiry else u.secretexpiresat
      | none => u.secretexpiresat,
    personalsecret := u.personalsecret,
    active := match b.active with
      | some a => a
      | none => u.active }

/-- `update` (users controller): admin check, schema validation (including
the `authmethod` pattern), user lookup, then `prisma.users.update` with the
accumulated `updateStruct` on the addressed row. -/
def updateUser (db : Db) (reqAdmin : Bool) (id : String) (body : Option UpdateBody) :
    Nat × Db :=
  if !reqAdmin then (403, db)
  else
    match body with
    | none => (400, db)
    | some b =>
        if !validUpdateBody b then (400, db)
        else
          match findUser db id with
          | none => (404, db)
          | some _ =>
              (200, { db with users :=
                        db.users.map (fun u => if u.id == id then applyUpdate b u else u) })

/-- `prisma.usersGroups.deleteMany({ where: { user: id } })`. -/
def deleteUserGroupsOf (id : String) (db : Db) : Db :=
  { db with usersGroups := db.usersGroups.filter (fun g => g.user != id) }

/-- `prisma.items.deleteMany({ where: { folder: personalId } })`. -/
def deleteItemsInFolder (fid : String) (db : Db) : Db :=
  { db with items := db.items.filter (fun i => i.folder != fid) }

/-- `prisma.folders.delete({ where: { id: personalId } })`. -/
def deleteFolderById (fid : String) (db : Db) : Db :=
  { db with folders := db.folders.filter (fun f => f.id != fid) }

/-- `prisma.users.delete({ where: { id } })`. -/
def deleteUserById (id : String) (db : Db) : Db :=
  { db with users := db.users.filter (fun u => u.id != id) }

/-- Which Prisma client a statement inside the `$transaction(async(tx)=>…)`
callback is issued on: the callback's transaction client `tx` (rolled back
together on failure) or the module-level `prisma` client (each statement
auto-commits on its own connection, outside the transaction). -/
inductive Client where
  | tx
  | outer
deriving DecidableEq, Repr

/-- The body of `remove`'s `$transaction` callback, in source order.  In the
source every one of these calls is written `prisma.…`, not `tx.…`, so every
step is tagged `Client.outer`.  The two folder steps run only when a
personal folder was found (`personalId` non-empty). -/
def removeSteps (id personalId : String) : List (Client × (Db → Db)) :=
  [(Client.outer, deleteUserGroupsOf id)]
    ++ (if personalId != "" then
          [(Client.outer, deleteItemsInFolder personalId),
           (Client.outer, deleteFolderById personalId)]
        else [])
    ++ [(Client.outer, deleteUserById id)]

/-- Prisma interactive-transaction semantics with a failure injected at step
index `k`: the callback's statements run in order until step `k` throws;
the transaction then rolls back, which undoes the statements issued on the
`tx` client but leaves every already-executed statement issued on the outer
`prisma` client committed.  With no failure everything commits. -/
def runPrismaTransaction (steps : List (Client × (Db → Db))) (failAt : Option Nat)
    (db : Db) : Bool × Db :=
  match failAt with
  | none => (true, steps.foldl (fun d s => s.2 d) db)
  | some k =>
      (false, (((steps.take k).filter (fun s => s.1 == Client.outer)).foldl
                 (fun d s => s.2 d) db))

/-- The cascade part of `remove`: look up the user's personal folders
(`personalId` is the first one's id, else the empty string) and run the
delete statements under `$transaction`. -/
def removeCascade (db : Db) (id : String) (failAt : Option Nat) : Bool × Db :=
  let personal := db.folders.filter (fun f => f.personal && f.user == some id)
  let personalId := match personal with
    | [] => ""
    | f :: _ => f.id
  runPrismaTransaction (removeSteps id personalId) failAt db

/-- `remove` (users controller): admin check, user lookup (404), the
reserved-id guard (`id == "0"` → 422 before any mutation), then the delete
cascade; 200 on success, 500 via the error middleware when a delete
throws. -/
def removeUser (db : Db) (reqAdmin : Bool) (id : String) (failAt : Option Nat) :
    Nat × Db :=
  if !reqAdmin then (403, db)
  else
    match findUser db id with
    | none => (404, db)
    | some _ =>
        if id == "0" then (422, db)
        else
          let r := removeCascade db id failAt
          if r.1 then (200, r.2) else (500, r.2)

/-- `setPersonalSecret` (users controller): schema validation, then
`prisma.users.update` writing the hashed personal secret on the requesting
user's row (an update of a missing row throws, surfacing as 500). -/
def setPersonalSecret (db : Db) (reqUser : String) (body : Option String) : Nat × Db :=
  match body with
  | none => (400, db)
  | some pwd =>
      match findUser db reqUser with
      | none => (500, db)
      | some _ =>
          (200, { db with users :=
                    db.users.map (fun u =>
                      if u.id == reqUser then
                        { u with personalsecret := some (hashPassword pwd) }
                      else u) })

/-- `personalFolderLogin` (users controller): schema validation, lookup of
the requesting (already token-authenticated) user, `Crypt.checkPassword`
against the stored `personalsecret` hash, and on success a fresh token from
`Auth.createToken(user.id, true)`; both failure branches answer 401 with no
token. -/
def personalFolderLogin (cfg : Cfg) (db : Db) (reqUser : String)
    (body : Option String) (now : Nat) : Nat × Option Jwt :=
  match body with
  | none => (400, none)
  | some password =>
      match findUser db reqUser with
      | none => (401, none)
      | some user =>
          if !checkPassword password user.personalsecret then (401, none)
          else (200, some (createToken cfg db user.id true now))

/-! ## Sequences of user-controller operations

Used to state the persistence of the built-in admin user across arbitrary
runs of the store-mutating user operations. -/

/-- One invocation of a store-mutating user-controller endpoint, with all of
its request data (including an injected write failure, where applicable). -/
inductive ApiOp where
  | createOp (reqAdmin : Bool) (body : Option CreateBody)
      (newid newFolderId newGroupId : String) (failAt : Option Nat)
  | updateOp (reqAdmin : Bool) (id : String) (body : Option UpdateBody)
  | removeOp (reqAdmin : Bool) (id : String) (failAt : Option Nat)
  | setSecretOp (reqUser : String) (body : Option String)
deriving DecidableEq, Repr

/-- The store state after one operation (the response is dropped). -/
def stepDb (db : Db) : ApiOp → Db
  | .createOp a b i f g k => (createUser db a b i f g k).2.1
  | .updateOp a i b => (updateUser db a i b).2
  | .removeOp a i k => (removeUser db a i k).2
  | .setSecretOp u b => (setPersonalSecret db u b).2

/-- The store state after a sequence of operations. -/
def runOps (db : Db) (ops : List ApiOp) : Db := ops.foldl stepDb db

/-- Builds the store that coincides with `db` except for the value of the
`personalsecret` column of the user row with the given id; used to compare
two stores differing only in that secret. -/
def withPersonalSecret (db : Db) (id : String) (s : Option String) : Db :=
  { db with users :=
      db.users.map (fun u => if u.id == id then { u with personalsecret := s } else u) }

/-! ## Sample store used by the concrete theorems -/

/-- The built-in admin user, reserved id `"0"`. -/
def adminUser : User :=
  { id := "0", login := "admin", lastname := some "admin", firstname := none,
    authmethod := "local", locale := "en_US", email := "admin@example.com",
    secret := hashPassword "adminpw", secretexpiresat := secretExpiry,
    personalsecret := none, active := true }

/-- An ordinary user owning a personal folder, with a personal secret set and
a `secretexpiresat` different from the far-future constant. -/
def bobUser : User :=
  { id := "u1", login := "bob", lastname := some "Builder", firstname := some "Bob",
    authmethod := "local", locale := "en_US", email := "bob@example.com",
    secret := hashPassword "bobpw", secretexpiresat := ⟨2024, 1, 1, 0, 0, 0⟩,
    personalsecret := some (hashPassword "pp"), active := true }

/-- Bob's personal folder, parented under the personal-roots anchor. -/
def bobFolder : Folder :=
  { id := "P1", parent := some "P", description := "bob", personal := true,
    user := some "u1" }

/-- Two items stored inside Bob's personal folder. -/
def bobItem1 : Item :=
  { id := "i1", folder := "P1", personal := true, title := "t1", data := "c1",
    dataiv := "iv1", dataauthtag := "tag1" }

/-- Second item in Bob's personal folder. -/
def bobItem2 : Item :=
  { id := "i2", folder := "P1", personal := true, title := "t2", data := "c2",
    dataiv := "iv2", dataauthtag := "tag2" }

/-- Admin's membership in the built-in Admins group `"A"`. -/
def adminMembership : UserGroup := { id := "ga", user := "0", group := "A" }

/-- Bob's membership in the built-in Everyone group `"E"`. -/
def bobMembership : UserGroup := { id := "g1", user := "u1", group := "E" }

/-- A concrete store: the admin, Bob, Bob's personal folder with two items,
and both memberships. -/
def sampleDb : Db :=
  { users := [adminUser, bobUser], folders := [bobFolder],
    usersGroups := [adminMembership, bobMembership], items := [bobItem1, bobItem2] }

/-- A valid creation payload for a new user. -/
def carolBody : CreateBody :=
  { login := "carol", firstname := "Carol", lastname := none, authmethod := none,
    locale := none, email := "carol@example.com", secret := "carolpw" }

/-- An update payload carrying only a new login password. -/
def secretOnlyBody : UpdateBody :=
  { login := none, firstname := none, lastname := none, authmethod := none,
    locale := none, email := none, secret := some "newpw", active := none }

/-! ## Theorems -/

/-- C2: a token issued by createToken verifies, before its expiry, to the
very payload that was embedded (same user id and personal-folder flag);
at or after the expiry instant verification fails with status 401 and the
message for the expired-token error; and a token whose signature was not
produced with the server's key fails with status 401 and the invalid-token
message, whatever its claims. -/
theorem c2_token_roundtrip (cfg : Cfg) (db : Db) (U : String) (p : Bool) (iat now : Nat) :
    (now < iat + cfg.jwt_duration →
      validateJWT cfg (some (createToken cfg db U p iat)) now =
        Except.ok { user := U, admin := isAdmin db (AuthEntity.userId U),
                    personalfolder := p }) ∧
    (iat + cfg.jwt_duration ≤ now →
      validateJWT cfg (some (createToken cfg db U p iat)) now =
        Except.error (401, "Token expired")) ∧
    (∀ t : Jwt, t.signKey ≠ cfg.jwt_key →
      validateJWT cfg (some t) now = Except.error (401, "Invalid token")) := by
  refine ⟨?_, ?_, ?_⟩
  · intro h
    simp [validateJWT, verifyJwt, createToken, jwtErrorMessage, Nat.not_le.mpr h]
  · intro h
    simp [validateJWT, verifyJwt, createToken, jwtErrorMessage, h]
  · intro t ht
    simp [validateJWT, verifyJwt, jwtErrorMessage, bne_iff_ne, ht]

/-- Closed instance of the C2 theorem: round trip, expiry and wrong-key
rejection at concrete inputs. -/
theorem c2_token_roundtrip_witness :
    validateJWT ⟨"k", 600⟩ (some (createToken ⟨"k", 600⟩ sampleDb "u1" false 100)) 699 =
      Except.ok { user := "u1", admin := false, personalfolder := false } ∧
    validateJWT ⟨"k", 600⟩ (some (createToken ⟨"k", 600⟩ sampleDb "u1" false 100)) 700 =
      Except.error (401, "Token expired") ∧
    validateJWT ⟨"k", 600⟩ (some ⟨⟨"u1", false, false⟩, 100, 700, "other"⟩) 100 =
      Except.error (401, "Invalid token") := by
  have h := c2_token_roundtrip ⟨"k", 600⟩ sampleDb "u1" false 100
  refine ⟨?_, (h 700).2.1 (by decide), (h 100).2.2 ⟨⟨"u1", false, false⟩, 100, 700, "other"⟩ (by decide)⟩
  have h1 := (h 699).1 (by decide)
  have ha : isAdmin sampleDb (AuthEntity.userId "u1") = false := by decide
  rw [ha] at h1
  exact h1

/-- C3: the admin flag embedded at issuance equals the user's Admins-group
membership in the store at that moment, and the admin check made on a
request carrying the token returns exactly that embedded flag, whatever the
store contains at check time — so revoking the membership later does not
change the outcome for the already-issued token. -/
theorem c3_admin_flag_snapshot (cfg : Cfg) (db dbLater : Db) (U : String) (p : Bool)
    (iat : Nat) :
    (createToken cfg db U p iat).payload.admin = isAdmin db (AuthEntity.userId U) ∧
    isAdmin dbLater (AuthEntity.request (createToken cfg db U p iat).payload.admin) =
      isAdmin db (AuthEntity.userId U) :=
  ⟨rfl, rfl⟩

/-- C8: a missing master key makes startup exit with code 1, a missing JWT
key with a nonzero code as well, every exit path carries a nonzero code and
mounts no route, and with both keys present all routers are installed. -/
theorem c8_startup_requires_keys (cfg : StartupConfig) :
    (cfg.master_key = none → startup cfg = StartupResult.exited 1) ∧
    (cfg.jwt_key = none → ∃ c, startup cfg = StartupResult.exited c ∧ c ≠ 0) ∧
    (∀ c, startup cfg = StartupResult.exited c → c ≠ 0) ∧
    (falsyKey cfg.master_key = false → falsyKey cfg.jwt_key = false →
      startup cfg = StartupResult.started apiRoutes) := by
  refine ⟨?_, ?_, ?_, ?_⟩
  · intro h
    have hm : falsyKey cfg.master_key = true := by simp [falsyKey, h]
    simp [startup, hm]
  · intro h
    by_cases hm : falsyKey cfg.master_key = true
    · exact ⟨1, by simp [startup, hm], one_ne_zero⟩
    · refine ⟨2, ?_, two_ne_zero⟩
      simp only [Bool.not_eq_true] at hm
      have hj : falsyKey cfg.jwt_key = true := by simp [falsyKey, h]
      simp [startup, hm, hj]
  · intro c hc
    unfold startup at hc
    by_cases hm : falsyKey cfg.master_key = true
    · simp [hm] at hc
      omega
    · simp only [Bool.not_eq_true] at hm
      by_cases hj : falsyKey cfg.jwt_key = true
      · simp [hm, hj] at hc
        omega
      · simp only [Bool.not_eq_true] at hj
        simp [hm, hj] at hc
  · intro hm hj
    simp [startup, hm, hj]

/-- Closed instance of the C8 theorem: each key-absence exits nonzero, and a
complete configuration starts with every router mounted. -/
theorem c8_startup_requires_keys_witness :
    startup ⟨none, some "jk"⟩ = StartupResult.exited 1 ∧
    (∃ c, startup ⟨some "mk", none⟩ = StartupResult.exited c ∧ c ≠ 0) ∧
    startup ⟨some "mk", some "jk"⟩ = StartupResult.started apiRoutes := by
  refine ⟨(c8_startup_requires_keys ⟨none, some "jk"⟩).1 rfl,
          (c8_startup_requires_keys ⟨some "mk", none⟩).2.1 rfl,
          (c8_startup_requires_keys ⟨some "mk", some "jk"⟩).2.2.2 (by decide) (by decide)⟩

/-- C4: for an authenticated user that exists in the store, the personal
folder login answers 200 exactly when the supplied password checks against
the stored personal-secret hash; on success the response carries a freshly
issued token whose personal-folder flag is true, and on a failed check it
answers 401 with no token. -/
theorem c4_personal_folder_login (cfg : Cfg) (db : Db) (reqUser pw : String) (u : User)
    (now : Nat) (hu : findUser db reqUser = some u) :
    ((personalFolderLogin cfg db reqUser (some pw) now).1 = 200 ↔
      checkPassword pw u.personalsecret = true) ∧
    (checkPassword pw u.personalsecret = true →
      personalFolderLogin cfg db reqUser (some pw) now =
        (200, some (createToken cfg db u.id true now)) ∧
      (createToken cfg db u.id true now).payload.personalfolder = true) ∧
    (checkPassword pw u.personalsecret = false →
      personalFolderLogin cfg db reqUser (some pw) now = (401, none)) := by
  unfold personalFolderLogin
  rw [hu]
  cases hc : checkPassword pw u.personalsecret <;> simp [hc, createToken]

/-- Closed instance of the C4 theorem: a correct personal password unlocks
with a fresh personal-folder token, a wrong one is refused with 401. -/
theorem c4_personal_folder_login_witness :
    personalFolderLogin ⟨"k", 600⟩ sampleDb "u1" (some "pp") 100 =
      (200, some (createToken ⟨"k", 600⟩ sampleDb "u1" true 100)) ∧
    (createToken ⟨"k", 600⟩ sampleDb "u1" true 100).payload.personalfolder = true ∧
    personalFolderLogin ⟨"k", 600⟩ sampleDb "u1" (some "xx") 100 = (401, none) := by
  have hok := (c4_personal_folder_login ⟨"k", 600⟩ sampleDb "u1" "pp" bobUser 100
    (by decide)).2.1 (by decide)
  have hko := (c4_personal_folder_login ⟨"k", 600⟩ sampleDb "u1" "xx" bobUser 100
    (by decide)).2.2 (by decide)
  exact ⟨hok.1, hok.2, hko⟩

/-- C9: the get-user endpoint is insensitive to the value of a set personal
secret: two stores that agree everywhere except on the (non-null) stored
personal-secret hash of a user produce byte-for-byte the same response for
that user, which carries only the derived boolean and never the hash. -/
theorem c9_get_hides_personalsecret (db : Db) (id : String) (s1 s2 : String) :
    getUser (withPersonalSecret db id (some s1)) id =
      getUser (withPersonalSecret db id (some s2)) id := by
  unfold getUser findUser withPersonalSecret
  simp only [List.find?_map]
  have hpred : ∀ s : Option String,
      ((fun v : User => v.id == id) ∘
        (fun u : User => if u.id == id then { u with personalsecret := s } else u)) =
      (fun u : User => u.id == id) := by
    intro s
    funext u
    by_cases h : u.id = id <;> simp [h]
  rw [hpred, hpred]
  cases hf : db.users.find? (fun u => u.id == id) with
  | none => rfl
  | some u =>
    have hid := List.find?_some hf
    simp at hid
    simp [hid]

/-- C10 counterexample: a request body carrying only a new secret also
overwrites the stored secretexpiresat column (a field the claim does not
list and the body does not carry): Bob's stored expiry differs from the
far-future constant before the update and equals it afterwards. -/
theorem c10_update_changes_secretexpiresat :
    bobUser.secretexpiresat ≠ secretExpiry ∧
    findUser sampleDb "u1" = some bobUser ∧
    findUser (updateUser sampleDb true "u1" (some secretOnlyBody)).2 "u1" =
      some { bobUser with secret := hashPassword "newpw",
                          secretexpiresat := secretExpiry } := by
  decide

/-- C10 (amended): on an existing user with a schema-valid body the update
answers 200 and rewrites exactly the addressed row through applyUpdate;
a string field that is absent or supplied empty keeps its stored value,
active supplied as false is applied and an absent active is kept, and
only the listed fields plus the secretexpiresat reset accompanying a
supplied secret can change — id and personalsecret never do. -/
theorem c10_update_frame (db : Db) (id : String) (b : UpdateBody) (u : User)
    (hvalid : validUpdateBody b = true) (hu : findUser db id = some u) :
    (updateUser db true id (some b)).1 = 200 ∧
    (updateUser db true id (some b)).2.users =
      db.users.map (fun v => if v.id == id then applyUpdate b v else v) ∧
    (applyUpdate b u).id = u.id ∧
    (applyUpdate b u).personalsecret = u.personalsecret ∧
    (truthy b.login = false → (applyUpdate b u).login = u.login) ∧
    (truthy b.firstname = false → (applyUpdate b u).firstname = u.firstname) ∧
    (truthy b.lastname = false → (applyUpdate b u).lastname = u.lastname) ∧
    (truthy b.authmethod = false → (applyUpdate b u).authmethod = u.authmethod) ∧
    (truthy b.locale = false → (applyUpdate b u).locale = u.locale) ∧
    (truthy b.email = false → (applyUpdate b u).email = u.email) ∧
    (truthy b.secret = false → (applyUpdate b u).secret = u.secret ∧
      (applyUpdate b u).secretexpiresat = u.secretexpiresat) ∧
    (b.active = none → (applyUpdate b u).active = u.active) ∧
    (b.active = some false → (applyUpdate b u).active = false) := by
  refine ⟨?_, ?_, rfl, rfl, ?_, ?_, ?_, ?_, ?_, ?_, ?_, ?_, ?_⟩
  · unfold updateUser
    rw [hu]
    simp [hvalid]
  · unfold updateUser
    rw [hu]
    simp [hvalid]
  · cases hb : b.login <;> simp_all [truthy, applyUpdate]
  · cases hb : b.firstname <;> simp_all [truthy, applyUpdate]
  · cases hb : b.lastname <;> simp_all [truthy, applyUpdate]
  · cases hb : b.authmethod <;> simp_all [truthy, applyUpdate]
  · cases hb : b.locale <;> simp_all [truthy, applyUpdate]
  · cases hb : b.email <;> simp_all [truthy, applyUpdate]
  · cases hb : b.secret <;> simp_all [truthy, applyUpdate]
  · cases hb : b.active <;> simp_all [applyUpdate]
  · cases hb : b.active <;> simp_all [applyUpdate]

/-- Closed instance of the C10 frame theorem: the secret-only body on Bob
gives 200, keeps id, personalsecret, login and active, and rewrites only
Bob's row. -/
theorem c10_update_frame_witness :
    (updateUser sampleDb true "u1" (some secretOnlyBody)).1 = 200 ∧
    (applyUpdate secretOnlyBody bobUser).id = bobUser.id ∧
    (applyUpdate secretOnlyBody bobUser).personalsecret = bobUser.personalsecret ∧
    (applyUpdate secretOnlyBody bobUser).login = bobUser.login ∧
    (applyUpdate secretOnlyBody bobUser).active = bobUser.active := by
  have h := c10_update_frame sampleDb "u1" secretOnlyBody bobUser (by decide) (by decide)
  exact ⟨h.1, h.2.2.1, h.2.2.2.1, h.2.2.2.2.1 (by decide), h.2.2.2.2.2.2.2.2.2.2.2.1 rfl⟩

/-! ### Helper lemmas about persistence of user rows -/

/-- A predicate holding somewhere in the left part holds on the append. -/
theorem any_append_left {α : Type} {l₁ l₂ : List α} {p : α → Bool}
    (h : l₁.any p = true) : (l₁ ++ l₂).any p = true := by
  simp [List.any_append, h]

/-- A predicate holding somewhere in the right part holds on the append. -/
theorem any_append_right {α : Type} {l₁ l₂ : List α} {p : α → Bool}
    (h : l₂.any p = true) : (l₁ ++ l₂).any p = true := by
  simp [List.any_append, h]

/-- Filtering out the rows of a user other than "0" keeps the admin row. -/
theorem exists_user_filter_ne {l : List User} {i : String} (hne : i ≠ "0")
    (h : l.any (fun u => u.id == "0") = true) :
    (l.filter (fun u => u.id != i)).any (fun u => u.id == "0") = true := by
  rw [List.any_eq_true] at h ⊢
  obtain ⟨u, hu, hid⟩ := h
  have h0 : u.id = "0" := by simpa using hid
  have hne' : u.id ≠ i := by
    rw [h0]
    exact fun e => hne e.symm
  exact ⟨u, List.mem_filter.mpr ⟨hu, by simpa [bne_iff_ne] using hne'⟩, hid⟩

/-- A row-wise rewrite that never changes the id column preserves
existence of any user id. -/
theorem existsUser_map_preserving (db : Db) (f : User → User)
    (hf : ∀ u, (f u).id = u.id) (id : String) :
    existsUser { db with users := db.users.map f } id = existsUser db id := by
  simp only [existsUser, List.any_map]
  congr 1
  funext u
  simp [Function.comp, hf]

/-- Every write of the create sequence keeps the admin row present. -/
theorem createSteps_preserve (b : CreateBody) (ni fi gi : String) :
    ∀ s ∈ createSteps b ni fi gi, ∀ d, existsUser d "0" = true →
      existsUser (s d) "0" = true := by
  intro s hs d hd
  simp only [createSteps, List.mem_cons, List.not_mem_nil, or_false] at hs
  rcases hs with rfl | rfl | rfl
  · show ((d.users ++ [newUserRecord b ni]).any (fun u => u.id == "0")) = true
    exact any_append_left hd
  · exact hd
  · exact hd

/-- Every delete of the removal cascade for a user other than "0" keeps the
admin row present. -/
theorem removeSteps_preserve {i : String} (pid : String) (hne : i ≠ "0") :
    ∀ s ∈ removeSteps i pid, ∀ d, existsUser d "0" = true →
      existsUser (s.2 d) "0" = true := by
  intro s hs d hd
  unfold removeSteps at hs
  by_cases hp : (pid != "") = true
  · simp [hp] at hs
    rcases hs with rfl | rfl | rfl | rfl
    · exact hd
    · exact hd
    · exact hd
    · show ((d.users.filter (fun u => u.id != i)).any (fun u => u.id == "0")) = true
      exact exists_user_filter_ne hne hd
  · simp only [Bool.not_eq_true] at hp
    simp [hp] at hs
    rcases hs with rfl | rfl
    · exact hd
    · show ((d.users.filter (fun u => u.id != i)).any (fun u => u.id == "0")) = true
      exact exists_user_filter_ne hne hd

/-- A Bool invariant preserved by every function of a list is preserved by
folding the list over a state. -/
theorem foldl_apply_preserves (p : Db → Bool) (steps : List (Db → Db))
    (hs : ∀ s ∈ steps, ∀ d, p d = true → p (s d) = true) :
    ∀ d, p d = true → p (steps.foldl (fun d s => s d) d) = true := by
  induction steps with
  | nil => exact fun d hd => hd
  | cons s t ih =>
    intro d hd
    simp only [List.foldl_cons]
    exact ih (fun s' hm d' hd' => hs s' (List.mem_cons_of_mem _ hm) d' hd')
      (s d) (hs s (List.mem_cons_self _ _) d hd)

/-- Same as foldl_apply_preserves, for client-tagged step lists. -/
theorem foldl_tagged_preserves (p : Db → Bool) (steps : List (Client × (Db → Db)))
    (hs : ∀ s ∈ steps, ∀ d, p d = true → p (s.2 d) = true) :
    ∀ d, p d = true → p (steps.foldl (fun d s => s.2 d) d) = true := by
  induction steps with
  | nil => exact fun d hd => hd
  | cons s t ih =>
    intro d hd
    simp only [List.foldl_cons]
    exact ih (fun s' hm d' hd' => hs s' (List.mem_cons_of_mem _ hm) d' hd')
      (s.2 d) (hs s (List.mem_cons_self _ _) d hd)

/-- The removal cascade for a user other than "0" keeps the admin row,
whether it completes or fails at any step. -/
theorem removeCascade_preserves_admin (db : Db) (i : String) (k : Option Nat)
    (hne : i ≠ "0") (h : existsUser db "0" = true) :
    existsUser (removeCascade db i k).2 "0" = true := by
  unfold removeCascade runPrismaTransaction
  cases k with
  | none =>
    exact foldl_tagged_preserves (fun d => existsUser d "0") _
      (removeSteps_preserve _ hne) db h
  | some n =>
    refine foldl_tagged_preserves (fun d => existsUser d "0") _ ?_ db h
    intro s hs d hd
    exact removeSteps_preserve _ hne s
      (List.mem_of_mem_take (List.mem_of_mem_filter hs)) d hd

/-- On the admin path with a well-formed body, the store returned by the
create endpoint is exactly the state of the (possibly failed) write
sequence. -/
theorem createUser_db_eq (db : Db) (b : CreateBody) (ni fi gi : String)
    (k : Option Nat) :
    (createUser db true (some b) ni fi gi k).2.1 =
      (runSeq (createSteps b ni fi gi) k db).2 := by
  rcases hr : runSeq (createSteps b ni fi gi) k db with ⟨ok, d'⟩
  cases ok <;> simp [createUser, hr]

/-- On the admin path for a found, non-reserved user the store returned by
the remove endpoint is exactly the cascade's state. -/
theorem removeUser_db_eq (db : Db) (i : String) (k : Option Nat) (u : User)
    (hf : findUser db i = some u) (h0 : (i == "0") = false) :
    (removeUser db true i k).2 = (removeCascade db i k).2 := by
  rcases hr : removeCascade db i k with ⟨ok, d'⟩
  cases ok <;> simp [removeUser, hf, h0, hr]

/-- On the admin path with a valid body and a found user, the store returned
by the update endpoint rewrites exactly the addressed row. -/
theorem updateUser_db_eq (db : Db) (i : String) (b : UpdateBody) (u : User)
    (hv : validUpdateBody b = true) (hf : findUser db i = some u) :
    (updateUser db true i (some b)).2 =
      { db with users := db.users.map (fun v => if v.id == i then applyUpdate b v else v) } := by
  simp [updateUser, hv, hf]

/-- No store-mutating user-controller operation ever deletes the built-in
admin row: single-step preservation. -/
theorem stepDb_preserves_admin (db : Db) (op : ApiOp)
    (h : existsUser db "0" = true) : existsUser (stepDb db op) "0" = true := by
  cases op with
  | createOp a body ni fi gi k =>
    cases a with
    | false => exact h
    | true =>
      cases body with
      | none => exact h
      | some b =>
        show existsUser (createUser db true (some b) ni fi gi k).2.1 "0" = true
        rw [createUser_db_eq]
        cases k with
        | none =>
          exact foldl_apply_preserves (fun d => existsUser d "0") _
            (createSteps_preserve b ni fi gi) db h
        | some n =>
          refine foldl_apply_preserves (fun d => existsUser d "0") _ ?_ db h
          intro s hs d hd
          exact createSteps_preserve b ni fi gi s (List.mem_of_mem_take hs) d hd
  | updateOp a i body =>
    cases a with
    | false => exact h
    | true =>
      cases body with
      | none => exact h
      | some b =>
        by_cases hv : validUpdateBody b = true
        · cases hf : findUser db i with
          | none =>
            have he : (updateUser db true i (some b)).2 = db := by
              simp [updateUser, hv, hf]
            show existsUser (updateUser db true i (some b)).2 "0" = true
            rw [he]
            exact h
          | some u =>
            show existsUser (updateUser db true i (some b)).2 "0" = true
            rw [updateUser_db_eq db i b u hv hf, existsUser_map_preserving]
            · exact h
            · intro v
              by_cases hvi : v.id = i <;> simp [hvi, applyUpdate]
        · have hv' : validUpdateBody b = false := by simpa using hv
          have he : (updateUser db true i (some b)).2 = db := by
            simp [updateUser, hv']
          show existsUser (updateUser db true i (some b)).2 "0" = true
          rw [he]
          exact h
  | removeOp a i k =>
    cases a with
    | false => exact h
    | true =>
      cases hf : findUser db i with
      | none =>
        have he : (removeUser db true i k).2 = db := by simp [removeUser, hf]
        show existsUser (removeUser db true i k).2 "0" = true
        rw [he]
        exact h
      | some u =>
        by_cases h0 : i = "0"
        · subst h0
          have he : (removeUser db true "0" k).2 = db := by simp [removeUser, hf]
          show existsUser (removeUser db true "0" k).2 "0" = true
          rw [he]
          exact h
        · have h0' : (i == "0") = false := by simp [h0]
          show existsUser (removeUser db true i k).2 "0" = true
          rw [removeUser_db_eq db i k u hf h0']
          exact removeCascade_preserves_admin db i k h0 h
  | setSecretOp ru body =>
    cases body with
    | none => exact h
    | some pwd =>
      cases hf : findUser db ru with
      | none =>
        have he : (setPersonalSecret db ru (some pwd)).2 = db := by
          simp [setPersonalSecret, hf]
        show existsUser (setPersonalSecret db ru (some pwd)).2 "0" = true
        rw [he]
        exact h
      | some u =>
        have he : (setPersonalSecret db ru (some pwd)).2 =
            { db with users := db.users.map (fun v =>
                if v.id == ru then { v with personalsecret := some (hashPassword pwd) }
                else v) } := by
          simp [setPersonalSecret, hf]
        show existsUser (setPersonalSecret db ru (some pwd)).2 "0" = true
        rw [he, existsUser_map_preserving]
        · exact h
        · intro v
          by_cases hvi : v.id = ru <;> simp [hvi]

/-- C1: the delete cascade is not atomic.  Every statement of the
transaction callback is issued on the outer client, so when deleting user
u1 (who owns personal folder P1 with two items and has a group membership)
fails at the final users.delete statement, the request answers 500 and the
store is left partially cascaded: the memberships, items and folder are
already gone while the user row survives — a state that is neither the
pre-delete store (which had the membership) nor the post-delete one (which
has no user row). -/
theorem c1_remove_cascade_not_atomic :
    (removeSteps "u1" "P1").all (fun s => decide (s.1 = Client.outer)) = true ∧
    (removeUser sampleDb true "u1" (some 3)).1 = 500 ∧
    existsUser (removeUser sampleDb true "u1" (some 3)).2 "u1" = true ∧
    (removeUser sampleDb true "u1" (some 3)).2.usersGroups.any
      (fun g => g.user == "u1") = false ∧
    sampleDb.usersGroups.any (fun g => g.user == "u1") = true ∧
    (removeUser sampleDb true "u1" (some 3)).2.folders = [] ∧
    (removeUser sampleDb true "u1" (some 3)).2 ≠ sampleDb := by
  decide

/-- C5: an admin-authenticated deletion request naming the reserved id "0"
answers 422 with the store completely unchanged, and no sequence of
user-controller operations (creates, updates, removals with or without
failures, personal-secret writes) ever removes the built-in admin row. -/
theorem c5_admin_user_never_removed (db : Db) (u : User)
    (h : findUser db "0" = some u) :
    (∀ failAt, removeUser db true "0" failAt = (422, db)) ∧
    (∀ (db' : Db) (ops : List ApiOp), existsUser db' "0" = true →
      existsUser (runOps db' ops) "0" = true) := by
  constructor
  · intro k
    simp [removeUser, h]
  · intro db' ops
    induction ops generalizing db' with
    | nil => exact fun hd => hd
    | cons op t ih =>
      intro hd
      simp only [runOps, List.foldl_cons]
      exact ih _ (stepDb_preserves_admin _ _ hd)

/-- Closed instance of the C5 theorem: removing "0" from the sample store
answers 422 unchanged, and the admin row survives a removal, a creation and
an attempted self-removal. -/
theorem c5_admin_user_never_removed_witness :
    removeUser sampleDb true "0" none = (422, sampleDb) ∧
    existsUser (runOps sampleDb
      [ApiOp.removeOp true "u1" none,
       ApiOp.createOp true (some carolBody) "u9" "f9" "g9" none,
       ApiOp.removeOp true "0" none]) "0" = true := by
  have h := c5_admin_user_never_removed sampleDb adminUser (by decide)
  exact ⟨h.1 none, h.2 sampleDb _ (by decide)⟩

/-- C6 counterexample: user creation is not atomic.  With the folder write
failing (failAt 1), the request answers 500 yet the new user row is already
persisted while no folder owned by the new user exists — a reachable store
with the user record but no personal folder. -/
theorem c6_create_not_atomic :
    (createUser sampleDb true (some carolBody) "u9" "f9" "g9" (some 1)).1 = 500 ∧
    existsUser (createUser sampleDb true (some carolBody) "u9" "f9" "g9" (some 1)).2.1
      "u9" = true ∧
    (createUser sampleDb true (some carolBody) "u9" "f9" "g9" (some 1)).2.1.folders.any
      (fun f => f.user == some "u9") = false := by
  decide

/-- C6 (amended): the three creation writes run sequentially with no
transaction; whenever the request reports success (201) the final store
contains both the new user row and its personal folder, marked personal,
owned by the new user and parented under the personal-roots anchor "P"
(failed runs can instead leave the user without the folder, as the
counterexample shows). -/
theorem c6_create_success_state (db : Db) (reqAdmin : Bool)
    (body : Option CreateBody) (ni fi gi : String) (failAt : Option Nat)
    (h : (createUser db reqAdmin body ni fi gi failAt).1 = 201) :
    existsUser (createUser db reqAdmin body ni fi gi failAt).2.1 ni = true ∧
    (createUser db reqAdmin body ni fi gi failAt).2.1.folders.any
      (fun f => f.id == fi && f.personal && f.parent == some "P" &&
        f.user == some ni) = true := by
  cases reqAdmin with
  | false => simp [createUser] at h
  | true =>
    cases body with
    | none => simp [createUser] at h
    | some b =>
      cases failAt with
      | some n => simp [createUser, runSeq] at h
      | none =>
        constructor
        · show ((db.users ++ [newUserRecord b ni]).any (fun u => u.id == ni)) = true
          apply any_append_right
          simp [newUserRecord]
        · show ((db.folders ++
              [({ id := fi, parent := some "P", description := b.login,
                  personal := true, user := some ni } : Folder)]).any
              (fun f => f.id == fi && f.personal && f.parent == some "P" &&
                f.user == some ni)) = true
          apply any_append_right
          simp

/-- Closed instance of the C6 amended theorem at a successful concrete
creation. -/
theorem c6_create_success_state_witness :
    existsUser (createUser sampleDb true (some carolBody) "u9" "f9" "g9" none).2.1
      "u9" = true ∧
    (createUser sampleDb true (some carolBody) "u9" "f9" "g9" none).2.1.folders.any
      (fun f => f.id == "f9" && f.personal && f.parent == some "P" &&
        f.user == some "u9") = true :=
  c6_create_success_state sampleDb true (some carolBody) "u9" "f9" "g9" none (by decide)

/-- C7: every successful user creation (status 201) leaves a membership row
linking the new user id to the built-in Everyone group "E" in the store. -/
theorem c7_everyone_membership (db : Db) (reqAdmin : Bool)
    (body : Option CreateBody) (ni fi gi : String) (failAt : Option Nat)
    (h : (createUser db reqAdmin body ni fi gi failAt).1 = 201) :
    (createUser db reqAdmin body ni fi gi failAt).2.1.usersGroups.any
      (fun g => g.user == ni && g.group == "E") = true := by
  cases reqAdmin with
  | false => simp [createUser] at h
  | true =>
    cases body with
    | none => simp [createUser] at h
    | some b =>
      cases failAt with
      | some n => simp [createUser, runSeq] at h
      | none =>
        show ((db.usersGroups ++ [({ id := gi, user := ni, group := "E" } : UserGroup)]).any
          (fun g => g.user == ni && g.group == "E")) = true
        apply any_append_right
        simp

/-- Closed instance of the C7 theorem at a successful concrete creation. -/
theorem c7_everyone_membership_witness :
    (createUser sampleDb true (some carolBody) "u9" "f9" "g9" none).2.1.usersGroups.any
      (fun g => g.user == "u9" && g.group == "E") = true :=
  c7_everyone_membership sampleDb true (some carolBody) "u9" "f9" "g9" none (by decide)

end Vaulted
